import Mathlib

/-
Verification of the Scene+ analytics engine core: the transaction
normalizers, the customer-profile aggregation, the two feature-engineering
pipelines, the segmentation train/predict lifecycle and the offer rule
engine.  Python DataFrames are embedded as lists of typed records, floats
as exact rationals (with a non-finite value of a pandas division modelled
explicitly where it matters), timestamps as integer seconds, and raised
exceptions as an Except error channel mirroring the exception classes of
the source.
-/

/-- Exception taxonomy of the source.  FeatureError and PredictionError
subclass ModelError (src/models/base.py); TransformerError owns the
transformer-local ValidationError and TransformationError
(src/data_pipeline/transformers/base.py).  The pydanticError constructor
stands for the ValidationError class raised by the pydantic library,
which is a distinct class from the transformer-local ValidationError that
shadows it in transformers/base.py.  keyError, valueError, attributeError
and nameError stand for the Python builtin exceptions. -/
inductive PyErr where
  | featureError (msg : String)
  | modelError (msg : String)
  | predictionError (msg : String)
  | transformationError (msg : String)
  | transformerValidationError (msg : String)
  | pydanticError (msg : String)
  | keyError (msg : String)
  | valueError (msg : String)
  | attributeError (msg : String)
  | nameError (msg : String)
  deriving DecidableEq

/-- Rendering of an exception as it appears interpolated into the message
of a wrapping exception (str(e) in the source). -/
def PyErr.msg : PyErr → String
  | .featureError m => m
  | .modelError m => m
  | .predictionError m => m
  | .transformationError m => m
  | .transformerValidationError m => m
  | .pydanticError m => m
  | .keyError m => m
  | .valueError m => m
  | .attributeError m => m
  | .nameError m => m

/-- Membership in the ModelError class hierarchy of src/models/base.py:
ModelError itself and its subclasses FeatureError and PredictionError.
Builtin exceptions such as NameError or KeyError are not in the family. -/
def PyErr.isModelErrorFamily : PyErr → Bool
  | .featureError _ => true
  | .modelError _ => true
  | .predictionError _ => true
  | _ => false

/-- Truth of Except.isOk as a Bool, for stating that a call succeeded. -/
def exceptOk {ε α : Type} : Except ε α → Bool
  | .ok _ => true
  | .error _ => false

/-- Sum of a list of rationals (pandas Series.sum on a concrete column). -/
def qsum : List ℚ → ℚ
  | [] => 0
  | x :: xs => x + qsum xs

/-- Maximum of a nonempty list of rationals; 0 on the empty list, which the
embedding only reaches behind an emptiness guard. -/
def qmax : List ℚ → ℚ
  | [] => 0
  | [x] => x
  | x :: y :: xs => max x (qmax (y :: xs))

/-- Minimum of a nonempty list of rationals; 0 on the empty list. -/
def qmin : List ℚ → ℚ
  | [] => 0
  | [x] => x
  | x :: y :: xs => min x (qmin (y :: xs))

/-- Maximum of a nonempty list of integer timestamps (Series.max). -/
def imax : List Int → Int
  | [] => 0
  | [x] => x
  | x :: y :: xs => max x (imax (y :: xs))

/-- Minimum of a nonempty list of integer timestamps (Series.min). -/
def imin : List Int → Int
  | [] => 0
  | [x] => x
  | x :: y :: xs => min x (imin (y :: xs))

/-- Whole-day difference of two timestamps in seconds: the days attribute
of a Python timedelta, which floors towards minus infinity. -/
def daysBetween (a b : Int) : Int := (a - b).fdiv 86400

/-- Lexicographic comparison of character lists by code point, the order
pandas uses when sorting string group keys. -/
def strLtAux : List Char → List Char → Bool
  | [], [] => false
  | [], _ :: _ => true
  | _ :: _, [] => false
  | c :: cs, d :: ds =>
    if c.toNat < d.toNat then true
    else if d.toNat < c.toNat then false
    else strLtAux cs ds

/-- Lexicographic string comparison by code point. -/
def strLt (a b : String) : Bool := strLtAux a.toList b.toList

/-- Count of distinct values of a concrete string column (Series.nunique). -/
def distinctCount (l : List String) : Nat :=
  (l.foldr (fun x acc => if x ∈ acc then acc else x :: acc) []).length

/-- One purchased item of the items column: a mapping with sku, quantity
and price keys (src/data_pipeline/validation/schemas.py). -/
structure Item where
  sku : String
  quantity : Int
  price : ℚ
  deriving DecidableEq

/-- A raw retail transaction record after the column renaming of
RetailTransformer.transform, before type coercion and validation.
points_earned is optional (filled with 0 during coercion). -/
structure RawRetailRecord where
  transaction_id : String
  store_id : String
  customer_id : String
  transaction_timestamp : Int
  total_amount : ℚ
  banner : String
  items : List Item
  payment_method : String
  points_earned : Option ℚ
  deriving DecidableEq

/-- A validated retail Transaction in the canonical shape of the
RetailTransaction pydantic schema. -/
structure RetailRecord where
  transaction_id : String
  store_id : String
  customer_id : String
  transaction_timestamp : Int
  total_amount : ℚ
  banner : String
  items : List Item
  payment_method : String
  points_earned : ℚ
  deriving DecidableEq

namespace RetailTransformer

/-- Column-wise coercions of RetailTransformer.transform: points_earned is
fillna(0) and cast to float, banner is lowercased; items arrive already
structured, for which the parse step is the identity. -/
def coerce (r : RawRetailRecord) : RawRetailRecord :=
  { r with points_earned := some (r.points_earned.getD 0), banner := r.banner.toLower }

/-- Validation against the RetailTransaction pydantic schema: total_amount
must be nonnegative (Field ge=0) and the items validator requires a
nonempty items list whose entries carry sku, quantity and price (the
typed Item structure carries them by construction).  A violation raises
the ValidationError of the pydantic library. -/
def schemaCheck (r : RawRetailRecord) : Except PyErr RetailRecord :=
  if r.total_amount < 0 then
    .error (.pydanticError "total_amount greater than or equal to 0")
  else if r.items.isEmpty then
    .error (.pydanticError "Transaction must have at least one item")
  else
    .ok { transaction_id := r.transaction_id, store_id := r.store_id,
          customer_id := r.customer_id,
          transaction_timestamp := r.transaction_timestamp,
          total_amount := r.total_amount, banner := r.banner,
          items := r.items, payment_method := r.payment_method,
          points_earned := r.points_earned.getD 0 }

/-- One record through BaseTransformer.validate_record.  The except clause
of validate_record names ValidationError, but the transformer-local
ValidationError class shadows the pydantic import of the same name in
transformers/base.py, so the ValidationError actually raised by the
pydantic schema call matches nothing and escapes the handler: the
record-level failure propagates instead of being appended to
error_records. -/
def validate_record (r : RawRetailRecord) : Except PyErr RetailRecord :=
  match schemaCheck r with
  | .ok v => .ok v
  | .error e =>
    match e with
    | .transformerValidationError m => .error (.transformerValidationError m)
    | other => .error other

/-- RetailTransformer.transform: coerce the batch, validate record by
record, and return the validated records; with the shadowed except clause
any single schema failure escapes the per-record loop and is re-raised by
the outer handler as a batch-level TransformationError.  An all-invalid
(hence empty) result also raises. -/
def transform (rs : List RawRetailRecord) : Except PyErr (List RetailRecord) :=
  match rs.mapM (fun r => validate_record (coerce r)) with
  | .error _ => .error (.transformationError "Failed to transform retail data")
  | .ok vs =>
    if vs.isEmpty then
      .error (.transformationError "Failed to transform retail data: No valid records after transformation")
    else
      .ok vs

end RetailTransformer

/-- A raw Scene+ transaction record after the column renaming of
SceneTransformer.transform. -/
structure RawSceneRecord where
  transaction_id : String
  member_id : String
  transaction_type : String
  points : ℚ
  transaction_timestamp : Int
  partner : String
  source_transaction_id : Option String
  deriving DecidableEq

namespace SceneTransformer

/-- The call fillna(None) on the source_transaction_id column.  pandas
rejects a fill value of None: Series.fillna raises ValueError (Must
specify a fill value or method) because passing None means no value was
supplied.  This is a semantic fact about the pandas library. -/
def fillnaNone (_xs : List (Option String)) : Except PyErr (List (Option String)) :=
  .error (.valueError "Must specify a fill value or method")

/-- Validation against the SceneTransaction pydantic schema: the
transaction type must be earn or redeem after lowercasing. -/
def schemaCheck (r : RawSceneRecord) : Except PyErr RawSceneRecord :=
  if r.transaction_type = "earn" ∨ r.transaction_type = "redeem" then .ok r
  else .error (.pydanticError "Transaction type must be one of earn redeem")

/-- SceneTransformer.transform: lowercases the type and partner columns,
then calls fillna(None) on source_transaction_id; that call raises
ValueError on every input, the outer handler wraps it, and so the
function raises TransformationError before any record is validated. -/
def transform (rs : List RawSceneRecord) : Except PyErr (List RawSceneRecord) :=
  let coerced := rs.map (fun r =>
    { r with transaction_type := r.transaction_type.toLower,
             partner := r.partner.toLower })
  match fillnaNone (coerced.map (·.source_transaction_id)) with
  | .error e => .error (.transformationError ("Failed to transform Scene+ data: " ++ e.msg))
  | .ok _ =>
    match coerced.mapM schemaCheck with
    | .error _ => .error (.transformationError "Failed to transform Scene+ data")
    | .ok vs =>
      if vs.isEmpty then
        .error (.transformationError "Failed to transform Scene+ data: No valid records after transformation")
      else
        .ok vs

end SceneTransformer

/-- One normalized transaction row as consumed by the two model pipelines.
The recommendation preprocessing additionally requires a segment column on
its input frame, so the record carries it; the segmentation preprocessing
ignores it. -/
structure Tx where
  customer_id : String
  transaction_timestamp : Int
  total_amount : ℚ
  banner : String
  points_earned : ℚ
  items : List Item
  segment : String
  deriving DecidableEq

/-- Insertion of a group key into a sorted duplicate-free key list. -/
def insertId (s : String) : List String → List String
  | [] => [s]
  | t :: ts =>
    if s = t then t :: ts
    else if strLt s t then s :: t :: ts
    else t :: insertId s ts

/-- The distinct customer ids of a batch in ascending order: the group
keys produced by groupby on customer_id, which sorts keys. -/
def sortedIds (data : List Tx) : List String :=
  data.foldr (fun t acc => insertId t.customer_id acc) []

/-- The rows of one customer group, in frame order. -/
def groupTxs (data : List Tx) (cid : String) : List Tx :=
  data.filter (fun t => t.customer_id = cid)

/-- Per-customer metrics computed by RecommendationEngine.preprocess_data:
count of transactions, days since the last visit measured from the
wall-clock now of the call, sum and mean of total_amount, sum and mean of
points_earned, number of distinct banners, and mean item count. -/
structure RMetrics where
  customer_id : String
  transaction_count : Nat
  days_since_last_visit : Int
  total_spend : ℚ
  average_transaction : ℚ
  total_points : ℚ
  average_points : ℚ
  unique_banners : Nat
  average_basket_size : ℚ
  deriving DecidableEq

namespace RecommendationEngine

/-- Aggregation of one customer group.  The recency lambda of the source
is (datetime.now() - x.max()).days: the wall-clock invocation time enters
the metric, passed here explicitly as the now argument. -/
def customerMetrics (now : Int) (cid : String) (txs : List Tx) : RMetrics :=
  let n : ℚ := (txs.length : ℚ)
  { customer_id := cid,
    transaction_count := txs.length,
    days_since_last_visit := daysBetween now (imax (txs.map (·.transaction_timestamp))),
    total_spend := qsum (txs.map (·.total_amount)),
    average_transaction := qsum (txs.map (·.total_amount)) / n,
    total_points := qsum (txs.map (·.points_earned)),
    average_points := qsum (txs.map (·.points_earned)) / n,
    unique_banners := distinctCount (txs.map (·.banner)),
    average_basket_size := qsum (txs.map (fun t => ((t.items.length : ℚ)))) / n }

/-- RecommendationEngine.preprocess_data: the required-column check fails
on an empty frame (an empty DataFrame has no columns), and otherwise the
batch is grouped by customer_id with the aggregations above.  The raised
FeatureError carries the preprocessing prefix of the outer handler. -/
def preprocess_data (now : Int) (data : List Tx) : Except PyErr (List RMetrics) :=
  if data.isEmpty then
    .error (.featureError "Error preprocessing data: Missing required columns")
  else
    .ok ((sortedIds data).map (fun cid => customerMetrics now cid (groupTxs data cid)))

end RecommendationEngine

/-- The eight engineered feature components of the recommendation variant
(RecommendationEngine.engineer_features). -/
structure RFeat where
  total_spend : ℚ
  visit_frequency : ℚ
  points_balance : ℚ
  points_redemption_rate : ℚ
  cross_banner_shopping : ℚ
  basket_size : ℚ
  days_since_last_visit : ℚ
  category_diversity : ℚ
  deriving DecidableEq

/-- Min-max scaling of one concrete column, the semantics of a fresh
MinMaxScaler fit_transform: subtract the column minimum and divide by the
range; sklearn replaces a zero range by one, sending a constant column
to zero. -/
def minmaxScale (xs : List ℚ) : List ℚ :=
  let m := qmin xs
  let M := qmax xs
  xs.map (fun x => (x - m) / (if M = m then 1 else M - m))

namespace RecommendationEngine

/-- RecommendationEngine.engineer_features: total_spend, points_balance,
cross_banner_shopping, basket_size and days_since_last_visit are min-max
scaled per call; visit_frequency and points_redemption_rate are plain
ratios taken on the unscaled metrics; category_diversity is the product
of the two scaled columns.  The pandas divisions in the two ratios
produce a non-finite float when the denominator is zero; the embedding
uses total rational division there (the claims touching these two
columns are settled at inputs with nonzero denominators).  An empty
input makes the scaler raise, wrapped as FeatureError. -/
def engineer_features (data : List RMetrics) : Except PyErr (List RFeat) :=
  if data.isEmpty then
    .error (.featureError "Error engineering features: empty input")
  else
    let ts := minmaxScale (data.map (·.total_spend))
    let vf := data.map (fun m => (m.transaction_count : ℚ) / ((m.days_since_last_visit : ℚ) + 1))
    let pb := minmaxScale (data.map (·.total_points))
    let prr := data.map (fun m => m.average_points / (m.average_transaction + 1))
    let cb := minmaxScale (data.map (fun m => ((m.unique_banners : ℚ))))
    let bs := minmaxScale (data.map (·.average_basket_size))
    let ds := minmaxScale (data.map (fun m => ((m.days_since_last_visit : ℚ))))
    .ok ((List.range data.length).map (fun i =>
      { total_spend := ts.getD i 0,
        visit_frequency := vf.getD i 0,
        points_balance := pb.getD i 0,
        points_redemption_rate := prr.getD i 0,
        cross_banner_shopping := cb.getD i 0,
        basket_size := bs.getD i 0,
        days_since_last_visit := ds.getD i 0,
        category_diversity := cb.getD i 0 * bs.getD i 0 }))

end RecommendationEngine

/-- Offer types of the OfferType enumeration. -/
inductive OfferTy where
  | points_multiplier
  | points_bonus
  | cross_banner
  | category_discount
  | threshold_bonus
  deriving DecidableEq

/-- A personalized offer (class Offer of src/models/recommendation.py).
The conditions mapping is embedded by its two possible keys; the validity
window is a pair of timestamps. -/
structure Offer where
  offer_type : OfferTy
  value : ℚ
  min_spend : Option ℚ
  spend_threshold : Option ℚ
  start_date : Int
  end_date : Int
  target_banners : Option (List String)
  target_categories : Option (List String)
  deriving DecidableEq

/-- One row of the segment-assignment frame passed to generate_offers,
restricted to the three columns the source selects. -/
structure SegRow where
  customer_id : String
  segment : String
  segment_description : String
  deriving DecidableEq

/-- One row of the merged customer_profiles frame inside generate_offers:
all preprocessing columns joined with segment and segment_description.
The frame has no banner column: the banner values of the raw
transactions were aggregated away into unique_banners. -/
structure MergedCustomer where
  customer_id : String
  transaction_count : Nat
  days_since_last_visit : Int
  total_spend : ℚ
  average_transaction : ℚ
  total_points : ℚ
  average_points : ℚ
  unique_banners : Nat
  average_basket_size : ℚ
  segment : String
  segment_description : String
  deriving DecidableEq

/-- Join of one metrics row with one segment row. -/
def mergeRow (m : RMetrics) (s : SegRow) : MergedCustomer :=
  { customer_id := m.customer_id,
    transaction_count := m.transaction_count,
    days_since_last_visit := m.days_since_last_visit,
    total_spend := m.total_spend,
    average_transaction := m.average_transaction,
    total_points := m.total_points,
    average_points := m.average_points,
    unique_banners := m.unique_banners,
    average_basket_size := m.average_basket_size,
    segment := s.segment,
    segment_description := s.segment_description }

namespace RecommendationEngine

/-- The fixed candidate category list returned by
RecommendationEngine._get_recommended_categories. -/
def recommendedCategories : List String :=
  ["Produce", "Dairy", "Meat", "Bakery", "Pantry"]

/-- The segment multiplier of _calculate_offer_value: looked up by exact
string match on segment_description, defaulting to 1.0. -/
def segmentMultiplier (desc : String) : ℚ :=
  if desc = "High Spender" then 12/10
  else if desc = "Frequent Shopper" then 11/10
  else if desc = "Points Saver" then 13/10
  else if desc = "Multi-Banner" then 115/100
  else 1

/-- RecommendationEngine._calculate_offer_value: the raw value, scaled by
average_points for a points multiplier and by average_transaction over
the spend threshold for a threshold bonus, then multiplied by the
segment multiplier.  In the generation pipeline a threshold bonus always
carries its spend_threshold condition. -/
def calculate_offer_value (o : Offer) (c : MergedCustomer) : ℚ :=
  let base :=
    match o.offer_type with
    | .points_multiplier => o.value * c.average_points
    | .threshold_bonus => o.value * (c.average_transaction / (o.spend_threshold.getD 0))
    | _ => o.value
  base * segmentMultiplier c.segment_description

/-- The points multiplier offer literal of _generate_customer_offers. -/
def pmOffer (now : Int) : Offer :=
  { offer_type := .points_multiplier, value := 2, min_spend := some 50,
    spend_threshold := none, start_date := now, end_date := now + 30 * 86400,
    target_banners := none, target_categories := none }

/-- The category discount offer literal of _generate_customer_offers. -/
def cdOffer (now : Int) : Offer :=
  { offer_type := .category_discount, value := 15/100, min_spend := some 25,
    spend_threshold := none, start_date := now, end_date := now + 14 * 86400,
    target_banners := none, target_categories := some recommendedCategories }

/-- The threshold bonus offer literal of _generate_customer_offers. -/
def tbOffer (now : Int) : Offer :=
  { offer_type := .threshold_bonus, value := 1000, min_spend := none,
    spend_threshold := some 150, start_date := now, end_date := now + 30 * 86400,
    target_banners := none, target_categories := none }

/-- The points bonus offer literal of _generate_customer_offers. -/
def pbOffer (now : Int) : Offer :=
  { offer_type := .points_bonus, value := 250, min_spend := some 25,
    spend_threshold := none, start_date := now, end_date := now + 7 * 86400,
    target_banners := none, target_categories := none }

/-- The rule cascade of _generate_customer_offers, evaluated in source
order.  When the cross-banner rule fires, building its offer calls
_get_recommended_banners, which reads the banner column of the merged
customer row; that column does not exist there, so a KeyError is raised
at that point and the remaining rules are never evaluated. -/
def firedOffers (f : RFeat) (now : Int) : Except PyErr (List Offer) :=
  let l1 : List Offer := if f.points_redemption_rate > 7/10 then [pmOffer now] else []
  if f.cross_banner_shopping < 3/10 then
    .error (.keyError "banner")
  else
    let l3 := l1 ++ (if f.category_diversity < 5/10 then [cdOffer now] else [])
    let l4 := l3 ++ (if f.total_spend > 7/10 then [tbOffer now] else [])
    let l5 := l4 ++ (if f.days_since_last_visit > 8/10 then [pbOffer now] else [])
    .ok l5

/-- Stable descending insertion by a rational key: an element is placed
after every element of strictly greater key and before the first element
of smaller or equal key. -/
def insertByDesc {α : Type} (key : α → ℚ) (a : α) : List α → List α
  | [] => [a]
  | b :: bs => if key a < key b then b :: insertByDesc key a bs else a :: b :: bs

/-- Stable descending sort by a rational key: the semantics of the Python
builtin sorted with a key function and reverse set, which is a stable
sort; elements of equal key keep their original relative order. -/
def sortByDesc {α : Type} (key : α → ℚ) : List α → List α
  | [] => []
  | a :: l => insertByDesc key a (sortByDesc key l)

/-- RecommendationEngine._generate_customer_offers: evaluate the rule
cascade on the engineered features, then sort the fired offers by
expected value, descending and stable, and keep the first n_offers. -/
def generate_customer_offers (c : MergedCustomer) (f : RFeat) (nOffers : Nat) (now : Int) :
    Except PyErr (List Offer) :=
  (firedOffers f now).map (fun os =>
    ((sortByDesc (fun o => calculate_offer_value o c) os).take nOffers))

/-- The inner join of the metrics frame with the segment frame on
customer_id: keeps the left (metrics) order, dropping every metrics row
without a matching segment row.  pandas merge with the default inner
join has exactly this key behavior for duplicate-free keys. -/
def mergeProfiles (ms : List RMetrics) (seg : List SegRow) : List MergedCustomer :=
  ms.filterMap (fun m =>
    (seg.find? (fun s => s.customer_id = m.customer_id)).map (fun s => mergeRow m s))

/-- Zero features row, used only as the unreachable fallback of a
positional lookup that is always in range. -/
def zeroRFeat : RFeat :=
  { total_spend := 0, visit_frequency := 0, points_balance := 0,
    points_redemption_rate := 0, cross_banner_shopping := 0, basket_size := 0,
    days_since_last_visit := 0, category_diversity := 0 }

/-- The per-customer loop of generate_offers over the enumerated merged
frame: the row at merged position i is paired with the features row at
positional label i of the full features frame (features.loc with the
name of the merged row, whose index was renumbered by the merge); the
first exception aborts the loop. -/
def offersLoop (feats : List RFeat) (nOffers : Nat) (now : Int) :
    List (Nat × MergedCustomer) → Except PyErr (List (String × List Offer))
  | [] => .ok []
  | (i, c) :: rest =>
    match generate_customer_offers c (feats.getD i zeroRFeat) nOffers now with
    | .error e => .error e
    | .ok os =>
      match offersLoop feats nOffers now rest with
      | .error e => .error e
      | .ok tl => .ok ((c.customer_id, os) :: tl)

/-- RecommendationEngine.generate_offers: preprocess, engineer features,
inner-join with the segment assignments, and generate per-customer offer
lists; any exception escaping a step is re-raised as ModelError by the
outer handler. -/
def generate_offers (now : Int) (customerData : List Tx) (segmentData : List SegRow)
    (nOffers : Nat) : Except PyErr (List (String × List Offer)) :=
  let inner : Except PyErr (List (String × List Offer)) :=
    match preprocess_data now customerData with
    | .error e => .error e
    | .ok ms =>
      match engineer_features ms with
      | .error e => .error e
      | .ok feats => offersLoop feats nOffers now (mergeProfiles ms segmentData).enum
  match inner with
  | .error e => .error (.modelError ("Error generating offers: " ++ e.msg))
  | .ok r => .ok r

end RecommendationEngine

/-- Per-customer metrics computed by CustomerSegmentation.preprocess_data.
The recency here is batch-relative: current_date is the maximum
transaction timestamp of the whole input batch. -/
structure SMetrics where
  customer_id : String
  transaction_count : Nat
  last_transaction_date : Int
  days_since_last_visit : Int
  total_spend : ℚ
  average_transaction_value : ℚ
  total_points : ℚ
  average_points_earned : ℚ
  unique_banners : Nat
  average_basket_size : ℚ
  deriving DecidableEq

namespace CustomerSegmentation

/-- Aggregation of one customer group of the segmentation variant. -/
def customerMetrics (currentDate : Int) (cid : String) (txs : List Tx) : SMetrics :=
  let n : ℚ := (txs.length : ℚ)
  { customer_id := cid,
    transaction_count := txs.length,
    last_transaction_date := imax (txs.map (·.transaction_timestamp)),
    days_since_last_visit := daysBetween currentDate (imax (txs.map (·.transaction_timestamp))),
    total_spend := qsum (txs.map (·.total_amount)),
    average_transaction_value := qsum (txs.map (·.total_amount)) / n,
    total_points := qsum (txs.map (·.points_earned)),
    average_points_earned := qsum (txs.map (·.points_earned)) / n,
    unique_banners := distinctCount (txs.map (·.banner)),
    average_basket_size := qsum (txs.map (fun t => ((t.items.length : ℚ)))) / n }

/-- CustomerSegmentation.preprocess_data: current_date is the batch-wide
maximum timestamp, and every customer group is aggregated relative to
it.  The required-column check fails on an empty frame. -/
def preprocess_data (data : List Tx) : Except PyErr (List SMetrics) :=
  if data.isEmpty then
    .error (.featureError "Error preprocessing data: Missing required columns")
  else
    let currentDate := imax (data.map (·.transaction_timestamp))
    .ok ((sortedIds data).map (fun cid => customerMetrics currentDate cid (groupTxs data cid)))

end CustomerSegmentation

/-- Division whose float counterpart is non-finite when the denominator is
zero: none stands for the inf or nan value pandas produces there. -/
def qdivChecked (a b : ℚ) : Option ℚ :=
  if b = 0 then none else some (a / b)

namespace CustomerSegmentation

/-- The active date range in months of engineer_features: the whole-day
span between the latest and the earliest last_transaction_date of the
batch, divided by 30.  There is no guard: the range is zero whenever all
customers share the same last-transaction day. -/
def dateRange (ms : List SMetrics) : ℚ :=
  ((daysBetween (imax (ms.map (·.last_transaction_date)))
                (imin (ms.map (·.last_transaction_date)))) : ℚ) / 30

/-- The raw (pre-standardization) segmentation feature row of one
customer, with the two divisions marked non-finite when their
denominator is zero: visit_frequency divides by the date range and
points_redemption_rate divides by average_transaction_value. -/
def rawFeatureRow (range : ℚ) (m : SMetrics) : List (Option ℚ) :=
  [some m.total_spend,
   qdivChecked (m.transaction_count : ℚ) range,
   some m.total_points,
   qdivChecked m.average_points_earned m.average_transaction_value,
   some ((m.unique_banners : ℚ)),
   some m.average_basket_size,
   some ((m.days_since_last_visit : ℚ)),
   some ((m.unique_banners : ℚ) * m.average_basket_size)]

/-- Fitted parameters of a StandardScaler: the per-column mean and the
per-column population variance, both exact rationals.  The applied
transform is entrywise subtraction of the mean followed by division by
the square root of the variance (one when the variance is zero); that
map is finite-value-preserving and no claim inspects the standardized
numeric values themselves, so the embedding records the fitted state and
the finite input matrix. -/
structure ScalerParams where
  mean : List ℚ
  variance : List ℚ
  deriving DecidableEq

/-- Mean of one column of a matrix given as a list of rows. -/
def colMean (rows : List (List ℚ)) (j : Nat) : ℚ :=
  qsum (rows.map (fun r => r.getD j 0)) / (rows.length : ℚ)

/-- Population variance of one column of a matrix (sklearn ddof zero). -/
def colVar (rows : List (List ℚ)) (j : Nat) : ℚ :=
  qsum (rows.map (fun r => (r.getD j 0 - colMean rows j) ^ 2)) / (rows.length : ℚ)

/-- Fit of a StandardScaler on a finite feature matrix of eight columns. -/
def fitScaler (rows : List (List ℚ)) : ScalerParams :=
  { mean := (List.range 8).map (colMean rows),
    variance := (List.range 8).map (colVar rows) }

/-- Extraction of a row of finite values; none when some entry is the
non-finite marker. -/
def finiteRow : List (Option ℚ) → Option (List ℚ)
  | [] => some []
  | none :: _ => none
  | some a :: xs => (finiteRow xs).map (fun as => a :: as)

/-- Extraction of a fully finite matrix; none when any entry anywhere is
non-finite. -/
def finiteRows : List (List (Option ℚ)) → Option (List (List ℚ))
  | [] => some []
  | r :: rs =>
    match finiteRow r with
    | none => none
    | some a => (finiteRows rs).map (fun as => a :: as)

/-- CustomerSegmentation.engineer_features: build the eight raw feature
columns and fit_transform a StandardScaler on them.  The scaler is
freshly refit on every call.  sklearn rejects a matrix containing a
non-finite value, which the outer handler wraps as FeatureError; an
empty input also makes the fit raise. -/
def engineer_features (ms : List SMetrics) : Except PyErr (ScalerParams × List (List ℚ)) :=
  if ms.isEmpty then
    .error (.featureError "Error engineering features: empty input")
  else
    match finiteRows (ms.map (rawFeatureRow (dateRange ms))) with
    | none => .error (.featureError "Error engineering features: Input contains infinity or a value too large")
    | some rows => .ok (fitScaler rows, rows)

/-- Abstraction of a fitted sklearn KMeans model.  The clustering itself
is an external library computation over floats with a seeded random
initialization; no claim inspects the produced segment labels, so the
fitted model records only its hyperparameters and training shape, and
its predictions below are abstracted to a total labelling function. -/
structure KMeansModel where
  n_clusters : Nat
  n_rows_trained : Nat
  deriving DecidableEq

/-- Abstraction of KMeans.fit on a feature matrix. -/
def kmeansFit (k : Nat) (rows : List (List ℚ)) : KMeansModel :=
  { n_clusters := k, n_rows_trained := rows.length }

/-- Abstraction of KMeans.predict: one label per input row. -/
def kmeansPredict (_m : KMeansModel) (rows : List (List ℚ)) : List Nat :=
  rows.map (fun _ => 0)

/-- Mutable state of a CustomerSegmentation instance: the constructor
leaves the model unset and the scaler unfitted. -/
structure SegState where
  n_clusters : Nat
  scalerParams : Option ScalerParams
  model : Option KMeansModel
  last_trained : Option Int
  deriving DecidableEq

/-- A freshly constructed CustomerSegmentation with the default five
clusters: no trained model, no fitted scaler. -/
def initState : SegState :=
  { n_clusters := 5, scalerParams := none, model := none, last_trained := none }

/-- CustomerSegmentation.train: preprocess, engineer features (fitting
the scaler on this batch), fit KMeans and stamp the training time; any
failure is re-raised as ModelError. -/
def train (st : SegState) (data : List Tx) (t : Int) : SegState × Except PyErr Unit :=
  match preprocess_data data with
  | .error e => (st, .error (.modelError ("Error training model: " ++ e.msg)))
  | .ok ms =>
    match engineer_features ms with
    | .error e => (st, .error (.modelError ("Error training model: " ++ e.msg)))
    | .ok (params, rows) =>
      ({ st with scalerParams := some params,
                 model := some (kmeansFit st.n_clusters rows),
                 last_trained := some t }, .ok ())

/-- CustomerSegmentation.predict: preprocess and engineer features, which
refits the scaler on the prediction batch, then ask the fitted model for
labels.  The except clause of predict names PredictionError, which is
never imported into customer_segmentation.py, so whatever exception the
body raises is replaced by a NameError escaping the method: prediction
on an untrained model (a None model attribute) surfaces as that
NameError, not as a ModelError.  The scaler mutation survives because
fit_transform ran before the failing attribute access. -/
def predict (st : SegState) (data : List Tx) : SegState × Except PyErr (List (String × Nat)) :=
  match preprocess_data data with
  | .error _ => (st, .error (.nameError "name PredictionError is not defined"))
  | .ok ms =>
    match engineer_features ms with
    | .error _ => (st, .error (.nameError "name PredictionError is not defined"))
    | .ok (params, rows) =>
      let st2 := { st with scalerParams := some params }
      match st.model with
      | none => (st2, .error (.nameError "name PredictionError is not defined"))
      | some km => (st2, .ok ((ms.map (·.customer_id)).zip (kmeansPredict km rows)))

end CustomerSegmentation

/-- The keys of the model_data mapping written by BaseModel.save_model:
exactly the model, the feature column list, the target column, the
training timestamp and the hyperparameters.  No scaler state is written. -/
def modelDataKeys : List String :=
  ["model", "feature_columns", "target_column", "last_trained", "model_params"]

/-- A single-item basket shared by the concrete example transactions. -/
def item1 : Item := { sku := "SKU1", quantity := 1, price := 10 }

/-- First example transaction of customer A: banner x, 100.0 spent. -/
def txA1 : Tx :=
  { customer_id := "A", transaction_timestamp := 0, total_amount := 100,
    banner := "x", points_earned := 1, items := [item1], segment := "s0" }

/-- Second example transaction of customer A: banner y, 100.0 spent. -/
def txA2 : Tx :=
  { customer_id := "A", transaction_timestamp := 0, total_amount := 100,
    banner := "y", points_earned := 1, items := [item1], segment := "s0" }

/-- Only transaction of customer B: banner x, 10.0 spent. -/
def txB1 : Tx :=
  { customer_id := "B", transaction_timestamp := 0, total_amount := 10,
    banner := "x", points_earned := 1, items := [item1], segment := "s0" }

/-- A three-transaction batch over the two customers A and B. -/
def exTxAB : List Tx := [txA1, txA2, txB1]

/-- Segment assignments covering only customer A. -/
def exSegA : List SegRow :=
  [{ customer_id := "A", segment := "0", segment_description := "High Spender" }]

/-- Segment assignments covering both customers. -/
def exSegAB : List SegRow :=
  [{ customer_id := "A", segment := "0", segment_description := "High Spender" },
   { customer_id := "B", segment := "1", segment_description := "Low Spender" }]

/-- The aggregated metrics of customer A in exTxAB at wall-clock time 0. -/
def mA : RMetrics :=
  { customer_id := "A", transaction_count := 2, days_since_last_visit := 0,
    total_spend := 200, average_transaction := 100, total_points := 2,
    average_points := 1, unique_banners := 2, average_basket_size := 1 }

/-- The aggregated metrics of customer B in exTxAB at wall-clock time 0. -/
def mB : RMetrics :=
  { customer_id := "B", transaction_count := 1, days_since_last_visit := 0,
    total_spend := 10, average_transaction := 10, total_points := 1,
    average_points := 1, unique_banners := 1, average_basket_size := 1 }

/-- The engineered recommendation features of customer A in exTxAB. -/
def fA : RFeat :=
  { total_spend := 1, visit_frequency := 2, points_balance := 1,
    points_redemption_rate := 1/101, cross_banner_shopping := 1,
    basket_size := 0, days_since_last_visit := 0, category_diversity := 0 }

/-- The engineered recommendation features of customer B in exTxAB. -/
def fB : RFeat :=
  { total_spend := 0, visit_frequency := 1, points_balance := 0,
    points_redemption_rate := 1/11, cross_banner_shopping := 0,
    basket_size := 0, days_since_last_visit := 0, category_diversity := 0 }

/-- Training batch for the segmentation model: customers P and Q with
last-transaction dates two days apart. -/
def exTxX : List Tx :=
  [{ customer_id := "P", transaction_timestamp := 0, total_amount := 10,
     banner := "x", points_earned := 2, items := [item1], segment := "s0" },
   { customer_id := "Q", transaction_timestamp := 172800, total_amount := 30,
     banner := "x", points_earned := 4, items := [item1], segment := "s0" }]

/-- Prediction batch for the segmentation model: same customers and
timestamps as exTxX but different amounts, so the refit scaler picks up
different statistics. -/
def exTxY : List Tx :=
  [{ customer_id := "P", transaction_timestamp := 0, total_amount := 20,
     banner := "x", points_earned := 2, items := [item1], segment := "s0" },
   { customer_id := "Q", transaction_timestamp := 172800, total_amount := 40,
     banner := "x", points_earned := 4, items := [item1], segment := "s0" }]

/-- A batch whose two customers share the same last-transaction day
(timestamps 100 seconds apart), making the active date range zero. -/
def exTxZ : List Tx :=
  [{ customer_id := "R", transaction_timestamp := 0, total_amount := 10,
     banner := "x", points_earned := 1, items := [item1], segment := "s0" },
   { customer_id := "S", transaction_timestamp := 100, total_amount := 20,
     banner := "x", points_earned := 1, items := [item1], segment := "s0" }]

/-- A well-formed retail record as it arrives at the transformer. -/
def goodRetailRecord : RawRetailRecord :=
  { transaction_id := "T1", store_id := "S1", customer_id := "C1",
    transaction_timestamp := 0, total_amount := 10, banner := "Sobeys",
    items := [item1], payment_method := "card", points_earned := some 5 }

/-- A retail record violating the schema: negative total_amount. -/
def badRetailRecord : RawRetailRecord :=
  { transaction_id := "T8", store_id := "S1", customer_id := "C1",
    transaction_timestamp := 0, total_amount := -20, banner := "Sobeys",
    items := [item1], payment_method := "card", points_earned := some 5 }

/-- A 50-record retail batch whose record at position 7 is the only
invalid one. -/
def exRetailBatch : List RawRetailRecord :=
  (List.range 50).map (fun i => if i = 7 then badRetailRecord else goodRetailRecord)

/-- A customer row used to exhibit an exact score tie: average_points 125
makes a doubled-points multiplier offer worth 250, the points bonus
value. -/
def exCustW : MergedCustomer :=
  { customer_id := "W", transaction_count := 1, days_since_last_visit := 0,
    total_spend := 10, average_transaction := 10, total_points := 1,
    average_points := 125, unique_banners := 1, average_basket_size := 1,
    segment := "0", segment_description := "High Spender" }

/-- A feature row firing exactly the points multiplier and points bonus
rules. -/
def exFeatW : RFeat :=
  { total_spend := 0, visit_frequency := 1, points_balance := 0,
    points_redemption_rate := 1, cross_banner_shopping := 1,
    basket_size := 1, days_since_last_visit := 1, category_diversity := 1 }

/-- The aggregated segmentation metrics of customer P in exTxX. -/
def mP : SMetrics :=
  { customer_id := "P", transaction_count := 1, last_transaction_date := 0,
    days_since_last_visit := 2, total_spend := 10, average_transaction_value := 10,
    total_points := 2, average_points_earned := 2, unique_banners := 1,
    average_basket_size := 1 }

/-- The aggregated segmentation metrics of customer Q in exTxX. -/
def mQ : SMetrics :=
  { customer_id := "Q", transaction_count := 1, last_transaction_date := 172800,
    days_since_last_visit := 0, total_spend := 30, average_transaction_value := 30,
    total_points := 4, average_points_earned := 4, unique_banners := 1,
    average_basket_size := 1 }

/-- The aggregated segmentation metrics of customer P in exTxY. -/
def mPy : SMetrics :=
  { customer_id := "P", transaction_count := 1, last_transaction_date := 0,
    days_since_last_visit := 2, total_spend := 20, average_transaction_value := 20,
    total_points := 2, average_points_earned := 2, unique_banners := 1,
    average_basket_size := 1 }

/-- The aggregated segmentation metrics of customer Q in exTxY. -/
def mQy : SMetrics :=
  { customer_id := "Q", transaction_count := 1, last_transaction_date := 172800,
    days_since_last_visit := 0, total_spend := 40, average_transaction_value := 40,
    total_points := 4, average_points_earned := 4, unique_banners := 1,
    average_basket_size := 1 }

/-- The aggregated segmentation metrics of customer R in exTxZ. -/
def mR : SMetrics :=
  { customer_id := "R", transaction_count := 1, last_transaction_date := 0,
    days_since_last_visit := 0, total_spend := 10, average_transaction_value := 10,
    total_points := 1, average_points_earned := 1, unique_banners := 1,
    average_basket_size := 1 }

/-- The aggregated segmentation metrics of customer S in exTxZ. -/
def mS : SMetrics :=
  { customer_id := "S", transaction_count := 1, last_transaction_date := 100,
    days_since_last_visit := 0, total_spend := 20, average_transaction_value := 20,
    total_points := 1, average_points_earned := 1, unique_banners := 1,
    average_basket_size := 1 }

/-- The finite segmentation feature matrix of exTxX. -/
def rowsX : List (List ℚ) :=
  [[10, 15, 2, 1/5, 1, 1, 2, 1], [30, 15, 4, 2/15, 1, 1, 0, 1]]

/-- The finite segmentation feature matrix of exTxY. -/
def rowsY : List (List ℚ) :=
  [[20, 15, 2, 1/10, 1, 1, 2, 1], [40, 15, 4, 1/10, 1, 1, 0, 1]]

/-- The raw segmentation feature row of one customer when both divisions
are defined: every component is an explicit finite rational. -/
def finiteFeatureRow (range : ℚ) (m : SMetrics) : List ℚ :=
  [m.total_spend,
   (m.transaction_count : ℚ) / range,
   m.total_points,
   m.average_points_earned / m.average_transaction_value,
   ((m.unique_banners : ℚ)),
   m.average_basket_size,
   ((m.days_since_last_visit : ℚ)),
   (m.unique_banners : ℚ) * m.average_basket_size]

/-- The merged profile row of customer A: metrics joined with its
segment assignment. -/
def mergedA : MergedCustomer :=
  mergeRow mA { customer_id := "A", segment := "0", segment_description := "High Spender" }

/-- The merged profile row of customer B: metrics joined with its
segment assignment. -/
def mergedB : MergedCustomer :=
  mergeRow mB { customer_id := "B", segment := "1", segment_description := "Low Spender" }

theorem le_imax_of_mem {x : Int} : ∀ {xs : List Int}, x ∈ xs → x ≤ imax xs := by
  intro xs
  induction xs with
  | nil => intro h; cases h
  | cons a l ih =>
    intro h
    cases l with
    | nil =>
      rcases List.mem_cons.mp h with h1 | h1
      · simp [imax, h1]
      · cases h1
    | cons b t =>
      rcases List.mem_cons.mp h with h1 | h1
      · simp [imax, h1]
      · exact le_trans (ih h1) (by simp [imax])

theorem imax_mem : ∀ {xs : List Int}, xs ≠ [] → imax xs ∈ xs := by
  intro xs
  induction xs with
  | nil => intro h; exact absurd rfl h
  | cons a l ih =>
    intro _
    cases l with
    | nil => simp [imax]
    | cons b t =>
      rcases max_choice a (imax (b :: t)) with h1 | h1
      · simp [imax, h1]
      · have hm := ih (by simp)
        simp only [imax, h1]
        exact List.mem_cons_of_mem _ hm

theorem qmin_le_of_mem {x : ℚ} : ∀ {xs : List ℚ}, x ∈ xs → qmin xs ≤ x := by
  intro xs
  induction xs with
  | nil => intro h; cases h
  | cons a l ih =>
    intro h
    cases l with
    | nil =>
      rcases List.mem_cons.mp h with h1 | h1
      · simp [qmin, h1]
      · cases h1
    | cons b t =>
      rcases List.mem_cons.mp h with h1 | h1
      · simp [qmin, h1]
      · exact le_trans (by simp [qmin]) (ih h1)

theorem le_qmax_of_mem {x : ℚ} : ∀ {xs : List ℚ}, x ∈ xs → x ≤ qmax xs := by
  intro xs
  induction xs with
  | nil => intro h; cases h
  | cons a l ih =>
    intro h
    cases l with
    | nil =>
      rcases List.mem_cons.mp h with h1 | h1
      · simp [qmax, h1]
      · cases h1
    | cons b t =>
      rcases List.mem_cons.mp h with h1 | h1
      · simp [qmax, h1]
      · exact le_trans (ih h1) (by simp [qmax])

theorem mem_minmaxScale_bounds {y : ℚ} {xs : List ℚ} (h : y ∈ minmaxScale xs) :
    0 ≤ y ∧ y ≤ 1 := by
  rcases List.mem_map.mp h with ⟨x, hx, rfl⟩
  have hlo := qmin_le_of_mem hx
  have hhi := le_qmax_of_mem hx
  by_cases hc : qmax xs = qmin xs
  · have hxeq : x = qmin xs := le_antisymm (hc ▸ hhi) hlo
    simp [hc, hxeq]
  · have hlt : qmin xs < qmax xs := lt_of_le_of_ne (le_trans hlo hhi) (fun h2 => hc h2.symm)
    have hpos : 0 < qmax xs - qmin xs := by linarith
    constructor
    · simp only [if_neg hc]
      exact div_nonneg (by linarith) (le_of_lt hpos)
    · simp only [if_neg hc]
      rw [div_le_one hpos]
      linarith

theorem minmaxScale_length (xs : List ℚ) : (minmaxScale xs).length = xs.length := by
  simp [minmaxScale]

theorem mem_insertId {a s : String} : ∀ {l : List String},
    a ∈ insertId s l ↔ a = s ∨ a ∈ l := by
  intro l
  induction l with
  | nil => simp [insertId]
  | cons t ts ih =>
    by_cases h1 : s = t
    · simp only [insertId, if_pos h1]
      constructor
      · intro h; exact Or.inr h
      · rintro (rfl | h)
        · exact h1 ▸ List.mem_cons_self _ _
        · exact h
    · by_cases h2 : strLt s t
      · simp only [insertId, if_neg h1, if_pos h2]
        simp [List.mem_cons, or_assoc]
      · simp only [insertId, if_neg h1, if_neg h2]
        rw [List.mem_cons, ih, List.mem_cons]
        tauto

theorem mem_sortedIds {c : String} : ∀ {data : List Tx},
    c ∈ sortedIds data ↔ ∃ t ∈ data, t.customer_id = c := by
  intro data
  induction data with
  | nil => simp [sortedIds]
  | cons t ds ih =>
    show c ∈ insertId t.customer_id (sortedIds ds) ↔ _
    rw [mem_insertId, ih]
    constructor
    · rintro (rfl | ⟨u, hu, rfl⟩)
      · exact ⟨t, List.mem_cons_self _ _, rfl⟩
      · exact ⟨u, List.mem_cons_of_mem _ hu, rfl⟩
    · rintro ⟨u, hu, rfl⟩
      rcases List.mem_cons.mp hu with rfl | hu2
      · exact Or.inl rfl
      · exact Or.inr ⟨u, hu2, rfl⟩

theorem groupTxs_sub {data : List Tx} {cid : String} {t : Tx}
    (h : t ∈ groupTxs data cid) : t ∈ data :=
  (List.mem_filter.mp h).1

theorem groupTxs_ne_nil {data : List Tx} {cid : String}
    (h : cid ∈ sortedIds data) : groupTxs data cid ≠ [] := by
  rcases mem_sortedIds.mp h with ⟨t, ht, rfl⟩
  intro hnil
  have : t ∈ groupTxs data t.customer_id :=
    List.mem_filter.mpr ⟨ht, by simp⟩
  rw [hnil] at this
  cases this

theorem mem_insertByDesc {α : Type} {key : α → ℚ} {x a : α} : ∀ {l : List α},
    x ∈ RecommendationEngine.insertByDesc key a l ↔ x = a ∨ x ∈ l := by
  intro l
  induction l with
  | nil => simp [RecommendationEngine.insertByDesc]
  | cons b bs ih =>
    by_cases h : key a < key b
    · simp only [RecommendationEngine.insertByDesc, if_pos h]
      rw [List.mem_cons, ih, List.mem_cons]
      tauto
    · simp only [RecommendationEngine.insertByDesc, if_neg h]
      simp [List.mem_cons]

theorem mem_sortByDesc {α : Type} {key : α → ℚ} {x : α} : ∀ {l : List α},
    x ∈ RecommendationEngine.sortByDesc key l ↔ x ∈ l := by
  intro l
  induction l with
  | nil => simp [RecommendationEngine.sortByDesc]
  | cons a as ih =>
    show x ∈ RecommendationEngine.insertByDesc key a (RecommendationEngine.sortByDesc key as) ↔ _
    rw [mem_insertByDesc, ih, List.mem_cons]

theorem sorted_insertByDesc {α : Type} {key : α → ℚ} {a : α} : ∀ {l : List α},
    l.Pairwise (fun x y => key y ≤ key x) →
    (RecommendationEngine.insertByDesc key a l).Pairwise (fun x y => key y ≤ key x) := by
  intro l
  induction l with
  | nil => intro _; simp [RecommendationEngine.insertByDesc]
  | cons b bs ih =>
    intro hp
    rcases List.pairwise_cons.mp hp with ⟨hb, hbs⟩
    by_cases h : key a < key b
    · simp only [RecommendationEngine.insertByDesc, if_pos h]
      refine List.pairwise_cons.mpr ⟨?_, ih hbs⟩
      intro z hz
      rcases mem_insertByDesc.mp hz with rfl | hz2
      · exact le_of_lt h
      · exact hb z hz2
    · simp only [RecommendationEngine.insertByDesc, if_neg h]
      refine List.pairwise_cons.mpr ⟨?_, hp⟩
      intro z hz
      rcases List.mem_cons.mp hz with rfl | hz2
      · exact le_of_not_lt h
      · exact le_trans (hb z hz2) (le_of_not_lt h)

theorem sorted_sortByDesc {α : Type} {key : α → ℚ} : ∀ (l : List α),
    (RecommendationEngine.sortByDesc key l).Pairwise (fun x y => key y ≤ key x) := by
  intro l
  induction l with
  | nil => simp [RecommendationEngine.sortByDesc]
  | cons a as ih => exact sorted_insertByDesc ih

theorem sublist_insertByDesc {α : Type} {key : α → ℚ} {a : α} : ∀ (l : List α),
    l.Sublist (RecommendationEngine.insertByDesc key a l) := by
  intro l
  induction l with
  | nil => simp [RecommendationEngine.insertByDesc]
  | cons b bs ih =>
    by_cases h : key a < key b
    · simp only [RecommendationEngine.insertByDesc, if_pos h]
      exact List.Sublist.cons₂ b ih
    · simp only [RecommendationEngine.insertByDesc, if_neg h]
      exact List.sublist_cons_of_sublist a (List.Sublist.refl _)

theorem pair_sublist_insertByDesc {α : Type} {key : α → ℚ} {a b : α}
    (hk : key b ≤ key a) : ∀ {l : List α}, b ∈ l →
    [a, b].Sublist (RecommendationEngine.insertByDesc key a l) := by
  intro l
  induction l with
  | nil => intro h; cases h
  | cons c cs ih =>
    intro hb
    by_cases h : key a < key c
    · simp only [RecommendationEngine.insertByDesc, if_pos h]
      rcases List.mem_cons.mp hb with rfl | hb2
      · exact absurd (lt_of_le_of_lt hk h) (lt_irrefl _)
      · exact List.sublist_cons_of_sublist c (ih hb2)
    · simp only [RecommendationEngine.insertByDesc, if_neg h]
      refine List.Sublist.cons₂ a ?_
      exact List.singleton_sublist.mpr hb

theorem pair_sublist_sortByDesc {α : Type} {key : α → ℚ} {a b : α}
    (hk : key b ≤ key a) : ∀ {l : List α}, [a, b].Sublist l →
    [a, b].Sublist (RecommendationEngine.sortByDesc key l) := by
  intro l
  induction l with
  | nil => intro h; cases h
  | cons c cs ih =>
    intro hs
    show [a, b].Sublist (RecommendationEngine.insertByDesc key c (RecommendationEngine.sortByDesc key cs))
    cases hs with
    | cons _ h =>
      exact List.Sublist.trans (ih h) (sublist_insertByDesc _)
    | cons₂ _ h =>
      have hb : b ∈ RecommendationEngine.sortByDesc key cs :=
        mem_sortByDesc.mpr (List.singleton_sublist.mp h)
      exact pair_sublist_insertByDesc hk hb

theorem finiteRow_of_all_some : ∀ {row : List (Option ℚ)},
    (∀ x ∈ row, ∃ q : ℚ, x = some q) → ∃ r, CustomerSegmentation.finiteRow row = some r := by
  intro row
  induction row with
  | nil => intro _; exact ⟨[], rfl⟩
  | cons x xs ih =>
    intro h
    rcases h x (List.mem_cons_self _ _) with ⟨q, rfl⟩
    rcases ih (fun y hy => h y (List.mem_cons_of_mem _ hy)) with ⟨r, hr⟩
    refine ⟨q :: r, ?_⟩
    show (CustomerSegmentation.finiteRow xs).map (fun as => q :: as) = some (q :: r)
    rw [hr]
    rfl

theorem finiteRows_of_all_some : ∀ {rows : List (List (Option ℚ))},
    (∀ row ∈ rows, ∃ r, CustomerSegmentation.finiteRow row = some r) →
    ∃ m, CustomerSegmentation.finiteRows rows = some m := by
  intro rows
  induction rows with
  | nil => intro _; exact ⟨[], rfl⟩
  | cons row rs ih =>
    intro h
    rcases h row (List.mem_cons_self _ _) with ⟨r, hr⟩
    rcases ih (fun y hy => h y (List.mem_cons_of_mem _ hy)) with ⟨m, hm⟩
    refine ⟨r :: m, ?_⟩
    show CustomerSegmentation.finiteRows (row :: rs) = some (r :: m)
    simp only [CustomerSegmentation.finiteRows, hr, hm]
    rfl

/-- C10: SceneTransformer.transform raises a batch-level
TransformationError on every input, including a fully valid batch: the
fillna call with a None fill value is rejected by pandas with a
ValueError, which the surrounding handler re-raises as
TransformationError, so Scene+ source normalization never returns
normalized records. -/
theorem c10_scene_transform_always_raises (rs : List RawSceneRecord) :
    SceneTransformer.transform rs =
      .error (.transformationError
        "Failed to transform Scene+ data: Must specify a fill value or method") :=
  rfl

/-- C1: contrary to the per-record isolation contract, a 50-record retail
batch with exactly one invalid record (negative total_amount at position
7) makes RetailTransformer.transform raise a batch-level
TransformationError instead of returning the 49 valid records plus one
error record: the pydantic ValidationError raised for the bad record is
not caught by the shadowed except clause of validate_record.  The other
49 records are individually valid, and the single failing record fails
with the pydantic range error. -/
theorem c1_single_invalid_record_aborts_retail_batch :
    RetailTransformer.transform exRetailBatch =
      .error (.transformationError "Failed to transform retail data") ∧
    (exRetailBatch.filter (fun r => !(r.total_amount < 0 : Bool))).length = 49 ∧
    RetailTransformer.validate_record (RetailTransformer.coerce badRetailRecord) =
      .error (.pydanticError "total_amount greater than or equal to 0") :=
  ⟨rfl, rfl, rfl⟩

theorem eval_preprocess_AB :
    RecommendationEngine.preprocess_data 0 exTxAB = .ok [mA, mB] := by
  simp [RecommendationEngine.preprocess_data, exTxAB, txA1, txA2, txB1,
    sortedIds, insertId, strLt, strLtAux, groupTxs,
    RecommendationEngine.customerMetrics, qsum, imax, daysBetween,
    distinctCount, mA, mB, List.filter]
  norm_num

theorem eval_engineer_AB :
    RecommendationEngine.engineer_features [mA, mB] = .ok [fA, fB] := by
  simp [RecommendationEngine.engineer_features, mA, mB, fA, fB, minmaxScale,
    qmin, qmax, List.range_succ]
  norm_num

theorem getD_mem_of_lt {xs : List ℚ} {i : Nat} (h : i < xs.length) : xs.getD i 0 ∈ xs := by
  induction xs generalizing i with
  | nil => simp at h
  | cons a l ih =>
    cases i with
    | zero => simp
    | succ n =>
      rw [List.getD_cons_succ]
      exact List.mem_cons_of_mem _ (ih (by simpa using h))

theorem minmaxScale_getD_bounds (xs : List ℚ) (i : Nat) (h : i < xs.length) :
    0 ≤ (minmaxScale xs).getD i 0 ∧ (minmaxScale xs).getD i 0 ≤ 1 :=
  mem_minmaxScale_bounds (getD_mem_of_lt (by rw [minmaxScale_length]; exact h))

/-- C7: the claim that every one of the 8 recommendation feature
components lies in the unit interval is false on the code: at the
concrete batch exTxAB the visit_frequency component of customer A is 2,
because visit_frequency (and likewise points_redemption_rate) is a raw
ratio that is never min-max scaled. -/
theorem c7_counterexample_vf_exceeds_one :
    RecommendationEngine.preprocess_data 0 exTxAB = .ok [mA, mB] ∧
    RecommendationEngine.engineer_features [mA, mB] = .ok [fA, fB] ∧
    fA.visit_frequency = 2 ∧ ¬ ((2 : ℚ) ≤ 1) :=
  ⟨eval_preprocess_AB, eval_engineer_AB, rfl, by norm_num⟩

/-- C7 amended: of the 8 recommendation feature components, the five
min-max scaled ones (total_spend, points_balance, cross_banner_shopping,
basket_size, days_since_last_visit) always lie in the unit interval, and
category_diversity does too, being the product of two scaled columns;
visit_frequency and points_redemption_rate are unscaled ratios with no
such bound. -/
theorem c7_amended_six_components_unit_interval
    (ms : List RMetrics) (l : List RFeat)
    (h : RecommendationEngine.engineer_features ms = .ok l) :
    ∀ r ∈ l,
      (0 ≤ r.total_spend ∧ r.total_spend ≤ 1) ∧
      (0 ≤ r.points_balance ∧ r.points_balance ≤ 1) ∧
      (0 ≤ r.cross_banner_shopping ∧ r.cross_banner_shopping ≤ 1) ∧
      (0 ≤ r.basket_size ∧ r.basket_size ≤ 1) ∧
      (0 ≤ r.days_since_last_visit ∧ r.days_since_last_visit ≤ 1) ∧
      (0 ≤ r.category_diversity ∧ r.category_diversity ≤ 1) := by
  intro r hr
  rw [RecommendationEngine.engineer_features] at h
  by_cases he : ms.isEmpty
  · rw [if_pos he] at h
    cases h
  · rw [if_neg he] at h
    cases h
    rcases List.mem_map.mp hr with ⟨i, hi, rfl⟩
    have hilt : i < ms.length := List.mem_range.mp hi
    have h1 := minmaxScale_getD_bounds (ms.map (·.total_spend)) i (by simpa using hilt)
    have h2 := minmaxScale_getD_bounds (ms.map (·.total_points)) i (by simpa using hilt)
    have h3 := minmaxScale_getD_bounds (ms.map (fun m => ((m.unique_banners : ℚ)))) i (by simpa using hilt)
    have h4 := minmaxScale_getD_bounds (ms.map (·.average_basket_size)) i (by simpa using hilt)
    have h5 := minmaxScale_getD_bounds (ms.map (fun m => ((m.days_since_last_visit : ℚ)))) i (by simpa using hilt)
    refine ⟨⟨h1.1, h1.2⟩, ⟨h2.1, h2.2⟩, ⟨h3.1, h3.2⟩, ⟨h4.1, h4.2⟩, ⟨h5.1, h5.2⟩, ?_, ?_⟩
    · exact mul_nonneg h3.1 h4.1
    · exact mul_le_one₀ h3.2 h4.1 h4.2

/-- C7 amended witness at the concrete batch exTxAB. -/
theorem c7_amended_witness :
    (0 ≤ fA.total_spend ∧ fA.total_spend ≤ 1) ∧
    (0 ≤ fA.points_balance ∧ fA.points_balance ≤ 1) ∧
    (0 ≤ fA.cross_banner_shopping ∧ fA.cross_banner_shopping ≤ 1) ∧
    (0 ≤ fA.basket_size ∧ fA.basket_size ≤ 1) ∧
    (0 ≤ fA.days_since_last_visit ∧ fA.days_since_last_visit ≤ 1) ∧
    (0 ≤ fA.category_diversity ∧ fA.category_diversity ≤ 1) :=
  c7_amended_six_components_unit_interval [mA, mB] [fA, fB] eval_engineer_AB
    fA (List.mem_cons_self _ _)

theorem eval_fired_A :
    RecommendationEngine.firedOffers fA 0 =
      .ok [RecommendationEngine.cdOffer 0, RecommendationEngine.tbOffer 0] := by
  rw [RecommendationEngine.firedOffers]
  norm_num [fA]

theorem eval_rank_A :
    RecommendationEngine.generate_customer_offers mergedA fA 3 0 =
      .ok [RecommendationEngine.tbOffer 0, RecommendationEngine.cdOffer 0] := by
  rw [RecommendationEngine.generate_customer_offers, eval_fired_A]
  show Except.ok _ = _
  norm_num [RecommendationEngine.sortByDesc, RecommendationEngine.insertByDesc,
    RecommendationEngine.calculate_offer_value, RecommendationEngine.segmentMultiplier,
    RecommendationEngine.cdOffer, RecommendationEngine.tbOffer, mergedA, mergeRow, mA]

theorem eval_generate_offers_dropB :
    RecommendationEngine.generate_offers 0 exTxAB exSegA 3 =
      .ok [("A", [RecommendationEngine.tbOffer 0, RecommendationEngine.cdOffer 0])] := by
  have hmerge : RecommendationEngine.mergeProfiles [mA, mB] exSegA = [mergedA] := by
    simp [RecommendationEngine.mergeProfiles, exSegA, mA, mB, mergedA, List.find?]
  have henum : ([mergedA] : List MergedCustomer).enum = [(0, mergedA)] := rfl
  have hid : mergedA.customer_id = "A" := rfl
  simp only [RecommendationEngine.generate_offers, eval_preprocess_AB,
    eval_engineer_AB, hmerge, henum, RecommendationEngine.offersLoop,
    List.getD_cons_zero, eval_rank_A, hid]
  rw [show mergeRow mA { customer_id := "A", segment := "0", segment_description := "High Spender" } = mergedA from rfl]
  rw [eval_rank_A]
  rfl

/-- C2: the claim is false on the code: customer B is present in the
transaction input and absent from the segment input, yet generate_offers
returns successfully, silently omitting B from the result (the inner
join drops the unmatched row) rather than raising a hard error. -/
theorem c2_counterexample_missing_customer_dropped :
    RecommendationEngine.generate_offers 0 exTxAB exSegA 3 =
      .ok [("A", [RecommendationEngine.tbOffer 0, RecommendationEngine.cdOffer 0])] ∧
    txB1 ∈ exTxAB ∧ txB1.customer_id = "B" ∧
    (∀ s ∈ exSegA, s.customer_id ≠ "B") ∧
    (∀ p ∈ [("A", [RecommendationEngine.tbOffer 0, RecommendationEngine.cdOffer 0])],
      p.1 ≠ "B") := by
  refine ⟨eval_generate_offers_dropB, ?_, rfl, ?_, ?_⟩
  · simp [exTxAB]
  · intro s hs
    simp only [exSegA, List.mem_singleton] at hs
    subst hs
    simp
  · intro p hp
    simp only [List.mem_singleton] at hp
    subst hp
    simp

/-- C2 amended: an empty transaction batch makes generate_offers raise a
ModelError (the required-column check fails on an empty frame), but a
customer missing from the segment input is silently dropped by the inner
join: the call can succeed while omitting that customer. -/
theorem c2_amended_empty_raises_missing_dropped :
    (∀ (now : Int) (seg : List SegRow) (n : Nat),
      RecommendationEngine.generate_offers now [] seg n =
        .error (.modelError
          "Error generating offers: Error preprocessing data: Missing required columns")) ∧
    RecommendationEngine.generate_offers 0 exTxAB exSegA 3 =
      .ok [("A", [RecommendationEngine.tbOffer 0, RecommendationEngine.cdOffer 0])] :=
  ⟨fun _ _ _ => rfl, eval_generate_offers_dropB⟩

theorem eval_fired_B :
    RecommendationEngine.firedOffers fB 0 = .error (.keyError "banner") := by
  rw [RecommendationEngine.firedOffers]
  norm_num [fB]

theorem eval_generate_offers_keyerror :
    RecommendationEngine.generate_offers 0 exTxAB exSegAB 3 =
      .error (.modelError "Error generating offers: banner") := by
  have hmerge : RecommendationEngine.mergeProfiles [mA, mB] exSegAB = [mergedA, mergedB] := by
    simp [RecommendationEngine.mergeProfiles, exSegAB, mA, mB, mergedA, mergedB, List.find?]
  have henum : ([mergedA, mergedB] : List MergedCustomer).enum = [(0, mergedA), (1, mergedB)] := rfl
  have hB : RecommendationEngine.generate_customer_offers mergedB fB 3 0 =
      .error (.keyError "banner") := by
    rw [RecommendationEngine.generate_customer_offers, eval_fired_B]
    rfl
  simp only [RecommendationEngine.generate_offers, eval_preprocess_AB,
    eval_engineer_AB, hmerge, henum, RecommendationEngine.offersLoop,
    List.getD_cons_zero, List.getD_cons_succ]
  rw [show mergeRow mA { customer_id := "A", segment := "0", segment_description := "High Spender" } = mergedA from rfl]
  rw [show mergeRow mB { customer_id := "B", segment := "1", segment_description := "Low Spender" } = mergedB from rfl]
  rw [eval_rank_A, hB]
  rfl

/-- C5: at the concrete batch exTxAB with complete segment assignments,
customer B satisfies the cross-banner condition (its scaled
cross_banner_shopping is 0, below 0.3), but instead of producing a
cross_banner offer targeting unvisited banners, building that offer
reads the banner column of the merged profile, which does not exist
there: the KeyError aborts the whole call as a ModelError. -/
theorem c5_cross_banner_rule_raises_keyerror :
    fB.cross_banner_shopping = 0 ∧ ((0 : ℚ) < 3/10) ∧
    RecommendationEngine.generate_offers 0 exTxAB exSegAB 3 =
      .error (.modelError "Error generating offers: banner") :=
  ⟨rfl, by norm_num, eval_generate_offers_keyerror⟩

theorem eval_preprocess_X :
    CustomerSegmentation.preprocess_data exTxX = .ok [mP, mQ] := by
  simp [CustomerSegmentation.preprocess_data, exTxX, sortedIds, insertId,
    strLt, strLtAux, groupTxs, CustomerSegmentation.customerMetrics, qsum,
    imax, daysBetween, distinctCount, mP, mQ, List.filter]

theorem eval_preprocess_Y :
    CustomerSegmentation.preprocess_data exTxY = .ok [mPy, mQy] := by
  simp [CustomerSegmentation.preprocess_data, exTxY, sortedIds, insertId,
    strLt, strLtAux, groupTxs, CustomerSegmentation.customerMetrics, qsum,
    imax, daysBetween, distinctCount, mPy, mQy, List.filter]

theorem eval_preprocess_Z :
    CustomerSegmentation.preprocess_data exTxZ = .ok [mR, mS] := by
  simp [CustomerSegmentation.preprocess_data, exTxZ, sortedIds, insertId,
    strLt, strLtAux, groupTxs, CustomerSegmentation.customerMetrics, qsum,
    imax, daysBetween, distinctCount, mR, mS, List.filter]

theorem eval_engineer_X :
    CustomerSegmentation.engineer_features [mP, mQ] =
      .ok (CustomerSegmentation.fitScaler rowsX, rowsX) := by
  simp [CustomerSegmentation.engineer_features, CustomerSegmentation.rawFeatureRow,
    CustomerSegmentation.dateRange, qdivChecked, CustomerSegmentation.finiteRow,
    CustomerSegmentation.finiteRows, imax, imin, daysBetween, mP, mQ, rowsX]
  norm_num

theorem eval_engineer_Y :
    CustomerSegmentation.engineer_features [mPy, mQy] =
      .ok (CustomerSegmentation.fitScaler rowsY, rowsY) := by
  simp [CustomerSegmentation.engineer_features, CustomerSegmentation.rawFeatureRow,
    CustomerSegmentation.dateRange, qdivChecked, CustomerSegmentation.finiteRow,
    CustomerSegmentation.finiteRows, imax, imin, daysBetween, mPy, mQy, rowsY]
  norm_num

/-- C3: the claim is false on the code: after training on exTxX, calling
predict on exTxY refits the StandardScaler on the prediction batch, so
the scaler state after predict holds the statistics of exTxY, not the
training-time parameters of exTxX (the two differ, their first fitted
means being 30 and 20); moreover the state written by save_model has no
scaler entry at all, so the fitted mean and scale are not persisted. -/
theorem c3_counterexample_predict_refits_scaler :
    (CustomerSegmentation.train CustomerSegmentation.initState exTxX 999).snd = .ok () ∧
    (CustomerSegmentation.train CustomerSegmentation.initState exTxX 999).fst.scalerParams =
      some (CustomerSegmentation.fitScaler rowsX) ∧
    (CustomerSegmentation.predict
        (CustomerSegmentation.train CustomerSegmentation.initState exTxX 999).fst
        exTxY).fst.scalerParams =
      some (CustomerSegmentation.fitScaler rowsY) ∧
    (CustomerSegmentation.fitScaler rowsX).mean.getD 0 0 = 20 ∧
    (CustomerSegmentation.fitScaler rowsY).mean.getD 0 0 = 30 ∧
    CustomerSegmentation.fitScaler rowsY ≠ CustomerSegmentation.fitScaler rowsX ∧
    "scaler" ∉ modelDataKeys := by
  have htrain : CustomerSegmentation.train CustomerSegmentation.initState exTxX 999 =
      ({ n_clusters := 5, scalerParams := some (CustomerSegmentation.fitScaler rowsX),
         model := some (CustomerSegmentation.kmeansFit 5 rowsX),
         last_trained := some 999 }, .ok ()) := by
    simp only [CustomerSegmentation.train, eval_preprocess_X, eval_engineer_X]
    rfl
  have hmX : (CustomerSegmentation.fitScaler rowsX).mean.getD 0 0 = 20 := by
    norm_num [CustomerSegmentation.fitScaler, CustomerSegmentation.colMean,
      qsum, rowsX, List.range_succ]
  have hmY : (CustomerSegmentation.fitScaler rowsY).mean.getD 0 0 = 30 := by
    norm_num [CustomerSegmentation.fitScaler, CustomerSegmentation.colMean,
      qsum, rowsY, List.range_succ]
  refine ⟨by rw [htrain], by rw [htrain], ?_, hmX, hmY, ?_, by simp [modelDataKeys]⟩
  · rw [htrain]
    simp only [CustomerSegmentation.predict, eval_preprocess_Y, eval_engineer_Y]
  · intro h
    have h2 := congrArg (fun p : CustomerSegmentation.ScalerParams => p.mean.getD 0 0) h
    simp only [] at h2
    rw [hmX, hmY] at h2
    norm_num at h2

/-- C3 amended: the standardization parameters are refit on every
engineer_features call: whenever predict runs on a batch (trained or
not), the scaler state afterwards holds the parameters fitted on that
prediction batch, and the state written by save_model contains no scaler
entry, so training-time scaling is neither persisted nor reapplied. -/
theorem c3_amended_predict_applies_prediction_batch_params
    (st : CustomerSegmentation.SegState) (data : List Tx)
    (ms : List SMetrics) (params : CustomerSegmentation.ScalerParams)
    (rows : List (List ℚ))
    (h1 : CustomerSegmentation.preprocess_data data = .ok ms)
    (h2 : CustomerSegmentation.engineer_features ms = .ok (params, rows)) :
    (CustomerSegmentation.predict st data).fst.scalerParams = some params ∧
    "scaler" ∉ modelDataKeys := by
  constructor
  · simp only [CustomerSegmentation.predict, h1, h2]
    cases st.model <;> rfl
  · simp [modelDataKeys]

/-- C3 amended witness: a concrete predict call on exTxX leaves the
scaler holding the exTxX statistics. -/
theorem c3_amended_witness :
    (CustomerSegmentation.predict CustomerSegmentation.initState exTxX).fst.scalerParams =
      some (CustomerSegmentation.fitScaler rowsX) ∧
    "scaler" ∉ modelDataKeys :=
  c3_amended_predict_applies_prediction_batch_params
    CustomerSegmentation.initState exTxX [mP, mQ]
    (CustomerSegmentation.fitScaler rowsX) rowsX
    eval_preprocess_X eval_engineer_X

/-- C9: predicting with a freshly constructed (untrained)
CustomerSegmentation on a valid batch does not raise the guarded
not-trained ModelError the claim describes: the attribute error from the
missing model is caught by the except clause of predict, which then
evaluates the name PredictionError that was never imported into
customer_segmentation.py, so the call raises a NameError, an incidental
failure outside the ModelError family. -/
theorem c9_untrained_predict_raises_nameerror :
    CustomerSegmentation.initState.model = none ∧
    (CustomerSegmentation.predict CustomerSegmentation.initState exTxX).snd =
      .error (.nameError "name PredictionError is not defined") ∧
    (PyErr.nameError "name PredictionError is not defined").isModelErrorFamily = false := by
  refine ⟨rfl, ?_, rfl⟩
  simp only [CustomerSegmentation.predict, eval_preprocess_X, eval_engineer_X]
  rfl

/-- C8: the claim is false on the code: on the concrete batch exTxZ, whose
two customers share the same last-transaction day, the active date range
is zero, the visit_frequency division produces a non-finite value, and
engineer_features raises a FeatureError instead of returning finite
features: the division is not guarded. -/
theorem c8_counterexample_zero_range_raises :
    CustomerSegmentation.preprocess_data exTxZ = .ok [mR, mS] ∧
    CustomerSegmentation.dateRange [mR, mS] = 0 ∧
    CustomerSegmentation.engineer_features [mR, mS] =
      .error (.featureError
        "Error engineering features: Input contains infinity or a value too large") := by
  refine ⟨eval_preprocess_Z, ?_, ?_⟩
  · have h100 : Int.fdiv 100 86400 = 0 := by decide
    norm_num [CustomerSegmentation.dateRange, imax, imin, daysBetween, mR, mS, h100]
  · simp [CustomerSegmentation.engineer_features, CustomerSegmentation.rawFeatureRow,
      CustomerSegmentation.dateRange, qdivChecked, CustomerSegmentation.finiteRow,
      CustomerSegmentation.finiteRows, imax, imin, daysBetween, mR, mS]

theorem finiteRow_rawFeatureRow {range : ℚ} {m : SMetrics} (hr : range ≠ 0)
    (ha : m.average_transaction_value ≠ 0) :
    CustomerSegmentation.finiteRow (CustomerSegmentation.rawFeatureRow range m) =
      some (finiteFeatureRow range m) := by
  simp [CustomerSegmentation.rawFeatureRow, finiteFeatureRow,
    CustomerSegmentation.finiteRow, qdivChecked, hr, ha]

theorem finiteRows_map_of_rowwise {f : SMetrics → List (Option ℚ)} {g : SMetrics → List ℚ} :
    ∀ {ms : List SMetrics},
      (∀ m ∈ ms, CustomerSegmentation.finiteRow (f m) = some (g m)) →
      CustomerSegmentation.finiteRows (ms.map f) = some (ms.map g) := by
  intro ms
  induction ms with
  | nil => intro _; rfl
  | cons m rest ih =>
    intro h
    have hm := h m (List.mem_cons_self _ _)
    have hrest := ih (fun x hx => h x (List.mem_cons_of_mem _ hx))
    show CustomerSegmentation.finiteRows (f m :: rest.map f) = _
    simp only [CustomerSegmentation.finiteRows, hm, hrest]
    rfl

/-- C8 amended: the date-range division of the segmentation feature
engineering is not guarded; but whenever the batch is nonempty, the
active date range is nonzero and every average transaction value is
nonzero, engineer_features succeeds and every one of the eight
components of every customer is the explicit finite rational given by
the source formulas. -/
theorem c8_amended_engineer_total_when_range_nonzero
    (ms : List SMetrics) (hne : ms ≠ [])
    (hr : CustomerSegmentation.dateRange ms ≠ 0)
    (ha : ∀ m ∈ ms, m.average_transaction_value ≠ 0) :
    CustomerSegmentation.engineer_features ms =
      .ok (CustomerSegmentation.fitScaler
             (ms.map (finiteFeatureRow (CustomerSegmentation.dateRange ms))),
           ms.map (finiteFeatureRow (CustomerSegmentation.dateRange ms))) := by
  rw [CustomerSegmentation.engineer_features]
  rw [if_neg (by simpa using hne)]
  rw [finiteRows_map_of_rowwise (fun m hm => finiteRow_rawFeatureRow hr (ha m hm))]

/-- C8 amended witness at the concrete two-day-range batch exTxX. -/
theorem c8_amended_witness :
    CustomerSegmentation.engineer_features [mP, mQ] =
      .ok (CustomerSegmentation.fitScaler
             ([mP, mQ].map (finiteFeatureRow (CustomerSegmentation.dateRange [mP, mQ]))),
           [mP, mQ].map (finiteFeatureRow (CustomerSegmentation.dateRange [mP, mQ]))) := by
  have h2 : Int.fdiv 172800 86400 = 2 := by decide
  refine c8_amended_engineer_total_when_range_nonzero [mP, mQ] (by simp) ?_ (by decide)
  norm_num [CustomerSegmentation.dateRange, imax, imin, daysBetween, mP, mQ, h2]

/-- C4: the claim is false for the recommendation pipeline: its
preprocess_data computes days_since_last_visit from the wall-clock
invocation time, not from the batch-wide maximum timestamp.  On exTxAB,
whose batch-wide maximum timestamp is 0, a call made five days later
reports 5 days for both customers, including the customers whose own
maximum equals the batch maximum, for which the claim requires 0. -/
theorem c4_counterexample_reco_days_depend_on_wall_clock :
    imax (exTxAB.map (·.transaction_timestamp)) = 0 ∧
    (RecommendationEngine.preprocess_data 432000 exTxAB).map
        (List.map (·.days_since_last_visit)) = .ok [5, 5] ∧
    (5 : Int) ≠ 0 := by
  have h5 : Int.fdiv 432000 86400 = 5 := by decide
  refine ⟨rfl, ?_, by decide⟩
  simp [RecommendationEngine.preprocess_data, exTxAB, txA1, txA2, txB1,
    sortedIds, insertId, strLt, strLtAux, groupTxs,
    RecommendationEngine.customerMetrics, imax, daysBetween,
    List.filter, h5, Except.map]

/-- C4 amended: only the segmentation pipeline computes
days_since_last_visit relative to the batch-wide maximum timestamp: for
every successfully preprocessed batch, every customer has a nonnegative
days_since_last_visit, and it is zero for every customer whose own
latest transaction equals the batch-wide maximum; the recommendation
pipeline instead measures recency from the wall-clock call time. -/
theorem c4_amended_seg_days_batch_relative
    (data : List Tx) (ms : List SMetrics)
    (h : CustomerSegmentation.preprocess_data data = .ok ms) :
    ∀ m ∈ ms, 0 ≤ m.days_since_last_visit ∧
      (m.last_transaction_date = imax (data.map (·.transaction_timestamp)) →
        m.days_since_last_visit = 0) := by
  intro m hm
  rw [CustomerSegmentation.preprocess_data] at h
  by_cases he : data.isEmpty
  · rw [if_pos he] at h
    cases h
  · rw [if_neg he] at h
    cases h
    rcases List.mem_map.mp hm with ⟨cid, hcid, rfl⟩
    have hg : groupTxs data cid ≠ [] := groupTxs_ne_nil hcid
    have hgm : (groupTxs data cid).map (·.transaction_timestamp) ≠ [] := by
      intro hnil
      exact hg (List.map_eq_nil_iff.mp hnil)
    have hmem : imax ((groupTxs data cid).map (·.transaction_timestamp)) ∈
        (groupTxs data cid).map (·.transaction_timestamp) := imax_mem hgm
    rcases List.mem_map.mp hmem with ⟨t, ht, hts⟩
    have hin : imax ((groupTxs data cid).map (·.transaction_timestamp)) ∈
        data.map (·.transaction_timestamp) :=
      hts ▸ List.mem_map.mpr ⟨t, groupTxs_sub ht, rfl⟩
    have hle : imax ((groupTxs data cid).map (·.transaction_timestamp)) ≤
        imax (data.map (·.transaction_timestamp)) := le_imax_of_mem hin
    constructor
    · exact Int.fdiv_nonneg (by omega) (by omega)
    · intro heq
      have : imax ((groupTxs data cid).map (·.transaction_timestamp)) =
          imax (data.map (·.transaction_timestamp)) := heq
      show daysBetween _ _ = 0
      rw [daysBetween, this, Int.sub_self, Int.zero_fdiv]

/-- C4 amended witness: customer Q of exTxX owns the batch maximum and
gets zero days since last visit. -/
theorem c4_amended_witness :
    (0 ≤ mQ.days_since_last_visit ∧
      (mQ.last_transaction_date = imax (exTxX.map (·.transaction_timestamp)) →
        mQ.days_since_last_visit = 0)) ∧
    mQ.last_transaction_date = imax (exTxX.map (·.transaction_timestamp)) :=
  ⟨c4_amended_seg_days_batch_relative exTxX [mP, mQ] eval_preprocess_X mQ (by simp),
   rfl⟩

theorem eval_fired_W :
    RecommendationEngine.firedOffers exFeatW 0 =
      .ok [RecommendationEngine.pmOffer 0, RecommendationEngine.pbOffer 0] := by
  rw [RecommendationEngine.firedOffers]
  norm_num [exFeatW]

theorem eval_rank_W :
    RecommendationEngine.generate_customer_offers exCustW exFeatW 3 0 =
      .ok [RecommendationEngine.pmOffer 0, RecommendationEngine.pbOffer 0] := by
  rw [RecommendationEngine.generate_customer_offers, eval_fired_W]
  show Except.ok _ = _
  norm_num [RecommendationEngine.sortByDesc, RecommendationEngine.insertByDesc,
    RecommendationEngine.calculate_offer_value, RecommendationEngine.segmentMultiplier,
    RecommendationEngine.pmOffer, RecommendationEngine.pbOffer, exCustW]

/-- C6: offer ranking works as specified: the segment multiplier table is
matched exactly on segment_description with default 1; the score of a
points multiplier offer scales its value by the average points earned
and a threshold bonus by average transaction value over its spend
threshold, all others keeping the raw value, each then multiplied by the
segment multiplier; a successful per-customer generation returns the
stable descending sort of the fired candidates truncated to n_offers,
hence at most n_offers pairwise score-sorted offers; and the stable sort
preserves the rule-evaluation order of any two candidates whose scores
tie (or are in order). -/
theorem c6_ranking_scored_sorted_stable_truncated :
    (RecommendationEngine.segmentMultiplier "High Spender" = 12/10 ∧
     RecommendationEngine.segmentMultiplier "Frequent Shopper" = 11/10 ∧
     RecommendationEngine.segmentMultiplier "Points Saver" = 13/10 ∧
     RecommendationEngine.segmentMultiplier "Multi-Banner" = 115/100 ∧
     ∀ s : String, s ≠ "High Spender" → s ≠ "Frequent Shopper" →
       s ≠ "Points Saver" → s ≠ "Multi-Banner" →
       RecommendationEngine.segmentMultiplier s = 1) ∧
    (∀ (o : Offer) (c : MergedCustomer),
      (o.offer_type = .points_multiplier →
        RecommendationEngine.calculate_offer_value o c =
          o.value * c.average_points *
            RecommendationEngine.segmentMultiplier c.segment_description) ∧
      (∀ q : ℚ, o.offer_type = .threshold_bonus → o.spend_threshold = some q →
        RecommendationEngine.calculate_offer_value o c =
          o.value * (c.average_transaction / q) *
            RecommendationEngine.segmentMultiplier c.segment_description) ∧
      (o.offer_type ≠ .points_multiplier → o.offer_type ≠ .threshold_bonus →
        RecommendationEngine.calculate_offer_value o c =
          o.value * RecommendationEngine.segmentMultiplier c.segment_description)) ∧
    (∀ (c : MergedCustomer) (f : RFeat) (n : Nat) (now : Int) (l : List Offer),
      RecommendationEngine.generate_customer_offers c f n now = .ok l →
      ∃ os, RecommendationEngine.firedOffers f now = .ok os ∧
        l = (RecommendationEngine.sortByDesc
              (fun o => RecommendationEngine.calculate_offer_value o c) os).take n ∧
        l.length ≤ n ∧
        l.Pairwise (fun a b => RecommendationEngine.calculate_offer_value b c ≤
          RecommendationEngine.calculate_offer_value a c)) ∧
    (∀ (c : MergedCustomer) (os : List Offer) (a b : Offer),
      RecommendationEngine.calculate_offer_value b c ≤
        RecommendationEngine.calculate_offer_value a c →
      [a, b].Sublist os →
      [a, b].Sublist (RecommendationEngine.sortByDesc
        (fun o => RecommendationEngine.calculate_offer_value o c) os)) := by
  refine ⟨⟨rfl, rfl, rfl, rfl, ?_⟩, ?_, ?_, ?_⟩
  · intro s h1 h2 h3 h4
    simp [RecommendationEngine.segmentMultiplier, h1, h2, h3, h4]
  · intro o c
    refine ⟨?_, ?_, ?_⟩
    · intro h
      simp [RecommendationEngine.calculate_offer_value, h]
    · intro q h hq
      simp [RecommendationEngine.calculate_offer_value, h, hq]
    · intro h1 h2
      cases hty : o.offer_type <;>
        simp_all [RecommendationEngine.calculate_offer_value]
  · intro c f n now l h
    cases hf : RecommendationEngine.firedOffers f now with
    | error e =>
      rw [RecommendationEngine.generate_customer_offers, hf] at h
      cases h
    | ok os =>
      rw [RecommendationEngine.generate_customer_offers, hf] at h
      cases h
      refine ⟨os, rfl, rfl, List.length_take_le _ _, ?_⟩
      exact ((sorted_sortByDesc os).sublist (List.take_sublist _ _))
  · intro c os a b hk hs
    exact @pair_sublist_sortByDesc Offer
      (fun o => RecommendationEngine.calculate_offer_value o c) a b hk os hs

/-- C6 witness: a concrete customer whose points multiplier and points
bonus offers tie at score 300 keeps the rule order, and the ranking
conclusions hold at the concrete generation call. -/
theorem c6_witness :
    (∃ os, RecommendationEngine.firedOffers exFeatW 0 = .ok os ∧
      [RecommendationEngine.pmOffer 0, RecommendationEngine.pbOffer 0] =
        (RecommendationEngine.sortByDesc
          (fun o => RecommendationEngine.calculate_offer_value o exCustW) os).take 3 ∧
      ([RecommendationEngine.pmOffer 0, RecommendationEngine.pbOffer 0] : List Offer).length ≤ 3 ∧
      ([RecommendationEngine.pmOffer 0, RecommendationEngine.pbOffer 0]).Pairwise
        (fun a b => RecommendationEngine.calculate_offer_value b exCustW ≤
          RecommendationEngine.calculate_offer_value a exCustW)) ∧
    [RecommendationEngine.pmOffer 0, RecommendationEngine.pbOffer 0].Sublist
      (RecommendationEngine.sortByDesc
        (fun o => RecommendationEngine.calculate_offer_value o exCustW)
        [RecommendationEngine.pmOffer 0, RecommendationEngine.pbOffer 0]) := by
  refine ⟨c6_ranking_scored_sorted_stable_truncated.2.2.1 exCustW exFeatW 3 0 _ eval_rank_W, ?_⟩
  refine c6_ranking_scored_sorted_stable_truncated.2.2.2 exCustW _ _ _ ?_ (List.Sublist.refl _)
  norm_num [RecommendationEngine.calculate_offer_value,
    RecommendationEngine.segmentMultiplier, RecommendationEngine.pmOffer,
    RecommendationEngine.pbOffer, exCustW]
